import Mathlib

/-!
Verification of the llmcp_client request-correlation core.

This file gives a shallow embedding, in Lean, of the request correlator,
tool dispatcher, command channel and protocol-server routing of the
repository (`src/mcp/mcp_streaming_server.py`, `src/networks/socket_server.py`,
`src/llmcp_ui.py`), and proves properties of that embedding.

JSON values (the payloads that travel between the JSON-RPC endpoint, the
correlator and the socket channel) are modelled by the inductive type `Value`.
Python `None` is `Value.vnull`; Python dicts are association lists of
string-keyed fields in insertion order.  Operations that can raise a Python
exception (such as calling `.get` on `None`) return `Except String _`.
-/

/-- A JSON-like Python value: `None`, booleans, integers, strings, lists and
string-keyed dicts (fields kept in insertion order). -/
inductive Value where
  | vnull : Value
  | vbool : Bool → Value
  | vnum : Int → Value
  | vstr : String → Value
  | vlist : List Value → Value
  | vdict : List (String × Value) → Value

/-- Fields of a Python dict, in insertion order. -/
abbrev Fields := List (String × Value)

/-- First value bound to key `k` in a field list (Python dict lookup; real
dicts never hold a key twice, so first-match is exact). -/
def getField : Fields → String → Option Value
  | [], _ => none
  | (k', v) :: rest, k => if k' = k then some v else getField rest k

/-- Python dict assignment `d[k] = v`: overwrite the existing binding in place,
or append the new key at the end (insertion order). -/
def setField : Fields → String → Value → Fields
  | [], k, v => [(k, v)]
  | (k', v') :: rest, k, v =>
      if k' = k then (k, v) :: rest else (k', v') :: setField rest k v

/-- Python `base.update(args)`: assign every field of `args` into `base`,
left to right. -/
def updateFields (base : Fields) : Fields → Fields
  | [] => base
  | (k, v) :: rest => updateFields (setField base k v) rest

/-- Python truthiness of a value (`if x:`). -/
def Value.truthy : Value → Bool
  | .vnull => false
  | .vbool b => b
  | .vnum n => n != 0
  | .vstr s => s ≠ ""
  | .vlist xs => !xs.isEmpty
  | .vdict fs => !fs.isEmpty

/-- Whether a value is hashable in Python (lists and dicts are not; using one
as the left operand of `in` on a dict raises `TypeError`). -/
def Value.hashable : Value → Bool
  | .vlist _ => false
  | .vdict _ => false
  | _ => true

/-- Whether the value is a Python dict (`isinstance(x, dict)`). -/
def Value.isDict : Value → Bool
  | .vdict _ => true
  | _ => false

/-- Whether the value is a Python string. -/
def Value.isStr : Value → Bool
  | .vstr _ => true
  | _ => false

/-- Python `x.get(k)` on a value: on a dict, the bound value or `None`;
on anything else (including `None` itself) it raises `AttributeError`. -/
def pyGet (v : Value) (k : String) : Except String Value :=
  match v with
  | .vdict fs => .ok ((getField fs k).getD .vnull)
  | _ => .error "AttributeError: object has no attribute get"

/-- Python `x == "s"` for a string literal: cross-type comparison is `False`,
never an error. -/
def pyEqStr (v : Value) (s : String) : Bool :=
  match v with
  | .vstr t => t = s
  | _ => false

/-- Python `x.startswith(p)`: defined on strings, raises `AttributeError`
on every other value. -/
def pyStartswith (v : Value) (p : String) : Except String Bool :=
  match v with
  | .vstr t => .ok (t.startsWith p)
  | _ => .error "AttributeError: object has no attribute startswith"

/-!
## Request correlator state

`mcp_streaming_server.py` keeps, guarded by `request_lock`:
  * `pending_requests`: dict from request id to
    `{event, container, tool_name, timestamp}`;
  * `request_queue`: a deque of request ids in insertion (FIFO) order.

A `threading.Event` is modelled by its set/unset flag; the one-slot
`response_container` dict is modelled by the value bound to `"data"`
(`Value.vnull` when no data has been stored).
-/

/-- One tracked entry of `pending_requests`:
`{"event": ..., "container": {"data": ...}, "tool_name": ..., "timestamp": ...}`. -/
structure PendingRequest where
  eventSet : Bool
  containerData : Value
  tool_name : String
  timestamp : Nat

/-- The correlator's shared state: the `pending_requests` dict (insertion
ordered) and the `request_queue` deque. -/
structure CorrState where
  pending : List (String × PendingRequest)
  queue : List String

/-- Lookup in the `pending_requests` dict (first binding of the key). -/
def findPending : List (String × PendingRequest) → String → Option PendingRequest
  | [], _ => none
  | (k, p) :: rest, k' => if k = k' then some p else findPending rest k'

/-- `execute_tool` lines 641-648: create the event and container, store the
entry in `pending_requests` and append the id to `request_queue`. -/
def register_request (st : CorrState) (request_id tool_name : String)
    (now : Nat) : CorrState :=
  { pending := st.pending ++
      [(request_id,
        { eventSet := false, containerData := .vnull,
          tool_name := tool_name, timestamp := now })],
    queue := st.queue ++ [request_id] }

/-- Binding a response to an entry: `pending["container"]["data"] = response_data`
followed by `pending["event"].set()`. -/
def resolveEntry (p : PendingRequest) (response_data : Value) : PendingRequest :=
  { p with containerData := response_data, eventSet := true }

/-- Update the entry stored under `id` with the response (the two mutations of
`handle_chrome_response` on a matched entry); all other entries untouched. -/
def storeResponse : List (String × PendingRequest) → String → Value →
    List (String × PendingRequest)
  | [], _, _ => []
  | (k, p) :: rest, id, rd =>
      if k = id then (k, resolveEntry p rd) :: rest
      else (k, p) :: storeResponse rest id rd

/-- `pending_requests.pop(request_id, None)`: drop the binding of the key,
keep everything else. -/
def popPending : List (String × PendingRequest) → String →
    List (String × PendingRequest)
  | [], _ => []
  | (k, p) :: rest, id => if k = id then rest else (k, p) :: popPending rest id

/-- `request_queue.remove(request_id)`: drop the first occurrence (the
`ValueError` raised when the id is absent is swallowed by the source). -/
def removeQueue : List String → String → List String
  | [], _ => []
  | x :: rest, id => if x = id then rest else x :: removeQueue rest id

/-- The `finally` block of `execute_tool`:
`pending_requests.pop(request_id, None)` and `request_queue.remove(request_id)`. -/
def finish_request (st : CorrState) (request_id : String) : CorrState :=
  { pending := popPending st.pending request_id,
    queue := removeQueue st.queue request_id }

/-- `_validate_response_for_tool` of `mcp_streaming_server.py` verbatim:
non-dicts fail; a dict holding any of the generic keys `success`, `result`,
`error`, `type` passes for every tool; otherwise the tool-specific key checks
decide. -/
def _validate_response_for_tool (response_data : Value) (tool_name : String) : Bool :=
  match response_data with
  | .vdict fs =>
      if (getField fs "success").isSome || (getField fs "result").isSome ||
         (getField fs "error").isSome || (getField fs "type").isSome then
        true
      else if tool_name = "get_page_info" &&
          ((getField fs "url").isSome || (getField fs "title").isSome) then
        true
      else if (tool_name = "get_element_text" || tool_name = "get_last_clicked_element") &&
          (getField fs "element").isSome then
        true
      else
        false
  | _ => false

/-- What `handle_chrome_response` did with a response, as visible in its log
lines: a direct id match, a FIFO fallback match, or an unmatched warning
(which records the extracted request id value). -/
inductive MatchOutcome where
  | direct : String → MatchOutcome
  | fifo : String → MatchOutcome
  | unmatched : Value → MatchOutcome

/-- The Method 1 guard `request_id and request_id in self.pending_requests`:
short-circuits on a falsy id; a truthy unhashable id raises `TypeError` from
the `in` test; a truthy string id matches iff it is a tracked key (non-string
hashable values are never equal to a string key). -/
def directKey (request_id : Value) (pending : List (String × PendingRequest)) :
    Except String (Option String) :=
  if request_id.truthy then
    if request_id.hashable then
      .ok (match request_id with
           | .vstr s => if (findPending pending s).isSome then some s else none
           | _ => none)
    else .error "TypeError: unhashable type"
  else .ok none

/-- `handle_chrome_response` of `mcp_streaming_server.py`:
extract `response_data.get('command').get("request_id")` (each `.get` can
raise `AttributeError`); Method 1 binds a truthy tracked id directly;
Method 2 (queue nonempty, falsy id) offers the response to the oldest queued
request and consumes it only when `_validate_response_for_tool` accepts the
shape; otherwise the response is logged as unmatched and the state is
untouched. -/
def handle_chrome_response (st : CorrState) (response_data : Value) :
    Except String (CorrState × MatchOutcome) :=
  match pyGet response_data "command" with
  | .error e => .error e
  | .ok cmd =>
    match pyGet cmd "request_id" with
    | .error e => .error e
    | .ok request_id =>
      match directKey request_id st.pending with
      | .error e => .error e
      | .ok (some id) =>
          .ok ({ st with pending := storeResponse st.pending id response_data },
               .direct id)
      | .ok none =>
          match st.queue with
          | oldest_id :: restQueue =>
              if !request_id.truthy then
                match findPending st.pending oldest_id with
                | some pending =>
                    if _validate_response_for_tool response_data pending.tool_name then
                      .ok ({ pending := storeResponse st.pending oldest_id response_data,
                             queue := restQueue },
                           .fifo oldest_id)
                    else
                      .ok (st, .unmatched request_id)
                | none => .ok (st, .unmatched request_id)
              else .ok (st, .unmatched request_id)
          | [] => .ok (st, .unmatched request_id)

/-!
## Command channel (`socket_server.py`)

A connected extension client is modelled by an id together with whether a
`send` to it succeeds during the broadcast under study.
-/

/-- A WebSocket client in the connection pool. -/
structure WSClient where
  cid : Nat
  sendOk : Bool
deriving DecidableEq, Repr

/-- Observable effect of one `broadcast_command` call: the per-client send
attempts (each carrying the serialized command), the pool after pruning, and
the returned boolean. -/
structure BroadcastResult where
  sends : List (WSClient × Value)
  remaining : List WSClient
  ok : Bool

/-- The `for client in list(self.clients)` loop of `broadcast_command`:
threads the `successful_sends` counter and the `disconnected` set through the
client list; one client's failure only adds it to `disconnected` and the loop
continues with the rest. -/
def broadcastLoop : List WSClient → Nat → List WSClient → Nat × List WSClient
  | [], successful_sends, disconnected => (successful_sends, disconnected)
  | c :: rest, successful_sends, disconnected =>
      if c.sendOk then broadcastLoop rest (successful_sends + 1) disconnected
      else broadcastLoop rest successful_sends (disconnected ++ [c])

/-- `broadcast_command` of `socket_server.py`: with an empty pool return
`False` at once; otherwise serialize the command once, attempt a send to every
client, drop the clients whose send failed from the pool
(`self.clients -= disconnected`), and return `successful_sends > 0`. -/
def broadcast_command (clients : List WSClient) (command : Value) : BroadcastResult :=
  if clients.isEmpty then
    { sends := [], remaining := clients, ok := false }
  else
    let (successful_sends, disconnected) := broadcastLoop clients 0 []
    { sends := clients.map (fun c => (c, command)),
      remaining := clients.filter (fun c => !(disconnected.contains c)),
      ok := successful_sends > 0 }

/-!
## Tool dispatcher (`execute_tool` of `mcp_streaming_server.py`)
-/

/-- `setup_tools` keys: the static tool catalog. -/
def toolNames : List String :=
  ["find_element", "click_element", "input_text", "get_element_text",
   "send_key", "get_page_info", "get_last_clicked_element", "list_saved_selectors"]

/-- The `action_mapping` dict of `execute_tool`. -/
def action_mapping : List (String × String) :=
  [("find_element", "find_element"),
   ("click_element", "click_element"),
   ("input_text", "input_text"),
   ("get_element_text", "get_text"),
   ("send_key", "send_key"),
   ("get_page_info", "get_page_info"),
   ("get_last_clicked_element", "get_last_clicked_element")]

/-- `action_mapping.get(tool_name, tool_name)`: dict lookup with the tool name
itself as the default. -/
def actionFor (tool_name : String) : String :=
  (action_mapping.lookup tool_name).getD tool_name

/-- Lines 627-632 of `execute_tool`: the command dict
`{"type": "dom_operation", "action": action, "request_id": request_id}`
followed by `command.update(arguments)`. -/
def buildCommand (tool_name request_id : String) (arguments : Fields) : Fields :=
  updateFields
    [("type", .vstr "dom_operation"),
     ("action", .vstr (actionFor tool_name)),
     ("request_id", .vstr request_id)]
    arguments

/-- Modelled from the spec: the two-argument `send_command` callback the MCP
server is constructed with (`self.send_command(command, "mcp")`) is not among
the sources here - only its call site and its type declaration are, and the
one-argument `llmcp_ui.send_command` shows the status/error envelope it
answers with.  Per the spec the `source` tag "travels with the command and
must be echoed back inside the result envelope", so the model attaches
`source` to the command payload and otherwise behaves as
`llmcp_ui.send_command`: when the socket server runs, broadcast the payload
and answer `{"status": "sent", "message": ...}` when the broadcast reached at
least one client, `{"error": "No WebSocket clients connected"}` when it did
not; without a running server answer `{"error": "WebSocket server not running"}`
and attempt no broadcast. -/
def send_command_spec (serverRunning : Bool) (clients : List WSClient)
    (command : Fields) (source : String) : Option BroadcastResult × Value :=
  let outbound : Fields := updateFields command [("source", .vstr source)]
  if serverRunning then
    let br := broadcast_command clients (.vdict outbound)
    if br.ok then
      (some br, .vdict [("status", .vstr "sent"),
                        ("message", .vstr "Command sent to extension")])
    else
      (some br, .vdict [("error", .vstr "No WebSocket clients connected")])
  else
    (none, .vdict [("error", .vstr "WebSocket server not running")])

/-- The test `send_result.get("status") != "sent"` (negated): `.get` yields
`None` when the key is absent, and only the exact string "sent" passes. -/
def statusIsSent (send_result : Value) : Bool :=
  match send_result with
  | .vdict fs =>
      match getField fs "status" with
      | some (.vstr s) => s = "sent"
      | _ => false
  | _ => false

/-- `send_result.get("error", "Failed to send command")`. -/
def sendErrorMsg (send_result : Value) : Value :=
  match send_result with
  | .vdict fs => (getField fs "error").getD (.vstr "Failed to send command")
  | _ => .vstr "Failed to send command"

/-- How far a call into `execute_tool` got before any blocking wait:
`list_saved_selectors` answers locally with no channel traffic; a failed send
returns its error dict at once (the `finally` cleanup already run); a
successful send leaves the caller blocked on the entry's event. -/
inductive DispatchResult where
  | localResult : Value → DispatchResult
  | sendFailed : Value → DispatchResult
  | awaitingResponse : String → DispatchResult

/-- The dispatch phase of `execute_tool` (lines 598-658): special-case
`list_saved_selectors` before any network step; otherwise build the command,
register the pending request (map + FIFO queue), hand the command to
`send_command`, and either fail at once when the status is not "sent"
(running the `finally` cleanup on the way out) or leave the request
registered and the caller waiting on its event.  `savedSelectors` stands for
the value `read_saved_selectors()` produces from disk. -/
def execute_tool_dispatch (tool_name : String) (arguments : Fields)
    (request_id : String) (now : Nat) (savedSelectors : Value)
    (serverRunning : Bool) (clients : List WSClient) (st : CorrState) :
    CorrState × Option BroadcastResult × DispatchResult :=
  if tool_name = "list_saved_selectors" then
    (st, none, .localResult savedSelectors)
  else
    let command := buildCommand tool_name request_id arguments
    let st1 := register_request st request_id tool_name now
    let sendRes := send_command_spec serverRunning clients command "mcp"
    if statusIsSent sendRes.2 then
      (st1, sendRes.1, .awaitingResponse request_id)
    else
      (finish_request st1 request_id, sendRes.1,
       .sendFailed (.vdict [("success", .vbool false),
                            ("error", sendErrorMsg sendRes.2)]))

/-- The branch of `execute_tool` taken when `response_event.wait(timeout)`
returns `False` (lines 703-716): when the queue is non-empty and the container
still falsy, sleep one second and - if a late response landed in the container
meanwhile - return it (a non-dict late response becomes an error dict);
otherwise return the timeout error naming `request_timeout`. -/
def execute_tool_on_timeout (queueNonempty : Bool)
    (dataAtTimeout dataAfterGrace : Value) (request_timeout : Nat) : Value :=
  let timeoutError : Value :=
    .vdict [("success", .vbool false),
            ("error", .vstr ("Request timeout - Chrome extension did not respond within "
                             ++ toString request_timeout ++ " seconds"))]
  if queueNonempty && !dataAtTimeout.truthy then
    if dataAfterGrace.truthy then
      if dataAfterGrace.isDict then dataAfterGrace
      else .vdict [("success", .vbool false), ("error", .vstr "Invalid late response")]
    else timeoutError
  else timeoutError

/-- Whether a result value is the dispatcher's timeout error: its "error"
field is exactly the timeout message for the configured 30-second
`request_timeout` of the source. -/
def isTimeoutError (v : Value) : Bool :=
  match v with
  | .vdict fs =>
      match getField fs "error" with
      | some (.vstr s) =>
          s = "Request timeout - Chrome extension did not respond within "
              ++ toString (30 : Nat) ++ " seconds"
      | _ => false
  | _ => false

/-!
## Protocol server (`handle_message` / `handle_jsonrpc_request`)
-/

mutual

/-- `json.dumps` of a value.  The source pretty-prints with `indent=2`;
whitespace and string escaping are not modelled (no property below depends on
the rendered text), the structure of the rendering is. -/
def Value.dumps : Value → String
  | .vnull => "null"
  | .vbool true => "true"
  | .vbool false => "false"
  | .vnum n => toString n
  | .vstr s => "\"" ++ s ++ "\""
  | .vlist xs => "[" ++ dumpsList xs ++ "]"
  | .vdict fs => "\x7b" ++ dumpsFields fs ++ "\x7d"

/-- Comma-separated rendering of a JSON array body. -/
def dumpsList : List Value → String
  | [] => ""
  | [v] => Value.dumps v
  | v :: rest => Value.dumps v ++ ", " ++ dumpsList rest

/-- Comma-separated rendering of a JSON object body. -/
def dumpsFields : List (String × Value) → String
  | [] => ""
  | [(k, v)] => "\"" ++ k ++ "\": " ++ Value.dumps v
  | (k, v) :: rest => "\"" ++ k ++ "\": " ++ Value.dumps v ++ ", " ++ dumpsFields rest

end

/-- Python `str(x)` as used inside f-strings: `None`, `True`, `False`,
numbers and bare string content; containers render as their JSON dump
(the quote style of Python repr is not modelled). -/
def Value.pystr : Value → String
  | .vnull => "None"
  | .vbool true => "True"
  | .vbool false => "False"
  | .vnum n => toString n
  | .vstr s => s
  | v => v.dumps

/-- A JSON schema for a tool taking the given required string properties,
as written literally in `setup_tools`. -/
def toolSchema (props : List (String × String)) (required : List String) : Value :=
  .vdict [("type", .vstr "object"),
          ("properties", .vdict (props.map (fun kv =>
            (kv.1, .vdict [("type", .vstr "string"),
                           ("description", .vstr kv.2)])))),
          ("required", .vlist (required.map .vstr))]

/-- `setup_tools` of `mcp_streaming_server.py`: the static catalog, keyed by
tool name, each entry holding a description and an input schema. -/
def setup_tools : List (String × Value) :=
  [("find_element", .vdict
     [("description", .vstr "Find an element using CSS selector"),
      ("inputSchema", toolSchema [("selector", "CSS selector")] ["selector"])]),
   ("click_element", .vdict
     [("description", .vstr "Click an element on the page"),
      ("inputSchema", toolSchema [("selector", "CSS selector")] ["selector"])]),
   ("input_text", .vdict
     [("description", .vstr "Input text into an element"),
      ("inputSchema", toolSchema
        [("selector", "CSS selector"), ("text", "Text to input")]
        ["selector", "text"])]),
   ("get_element_text", .vdict
     [("description", .vstr "Get text content from an element"),
      ("inputSchema", toolSchema [("selector", "CSS selector")] ["selector"])]),
   ("send_key", .vdict
     [("description", .vstr "Send key press to an element"),
      ("inputSchema", toolSchema
        [("selector", "CSS selector"), ("key", "Key to send")]
        ["selector", "key"])]),
   ("get_page_info", .vdict
     [("description", .vstr "Get current page information"),
      ("inputSchema", toolSchema [] [])]),
   ("get_last_clicked_element", .vdict
     [("description", .vstr "Get last clicked element info"),
      ("inputSchema", toolSchema [] [])]),
   ("list_saved_selectors", .vdict
     [("description", .vstr "List all saved CSS selectors from llmcp_selectors.json"),
      ("inputSchema", toolSchema [] [])])]

/-- The `tools/list` payload: one `{name, description, inputSchema}` object
per catalog entry, in catalog order. -/
def toolsListPayload : Value :=
  .vlist (setup_tools.map (fun kv =>
    .vdict [("name", .vstr kv.1),
            ("description", (pyGet kv.2 "description").toOption.getD .vnull),
            ("inputSchema", (pyGet kv.2 "inputSchema").toOption.getD .vnull)]))

/-- A JSON-RPC success envelope. -/
def rpcResult (request_id : Value) (result : Value) : Value :=
  .vdict [("jsonrpc", .vstr "2.0"), ("id", request_id), ("result", result)]

/-- A JSON-RPC error envelope. -/
def rpcError (request_id : Value) (code : Int) (message : String) : Value :=
  .vdict [("jsonrpc", .vstr "2.0"), ("id", request_id),
          ("error", .vdict [("code", .vnum code), ("message", .vstr message)])]

/-- Python `x == False`: `False` and the number `0` compare equal to `False`;
everything else does not. -/
def pyEqFalse : Value → Bool
  | .vbool false => true
  | .vnum n => n == 0
  | _ => false

/-- `{k: v for k, v in result.items() if k not in ["success"]}`. -/
def cleanResult (fs : Fields) : Fields :=
  fs.filter (fun kv => kv.1 ≠ "success")

/-- The `tools/call` branch after `execute_tool_async` returned `result`
(lines 545-578): a result whose `success` equals `False` becomes an `isError`
text content carrying the error message; any other result is rendered as the
JSON dump of the result without its `success` key (or of the whole result when
nothing else remains). -/
def toolsCallEnvelope (request_id : Value) (result : Value) :
    Except String Value :=
  match result with
  | .vdict fs =>
    if pyEqFalse ((getField fs "success").getD .vnull) then
      let error_text := (getField fs "error").getD (.vstr "Unknown error")
      .ok (rpcResult request_id (.vdict
        [("content", .vlist [.vdict
           [("type", .vstr "text"),
            ("text", .vstr ("Error: " ++ error_text.pystr))]]),
         ("isError", .vbool true)]))
    else
      let clean := cleanResult fs
      let formatted :=
        if !clean.isEmpty then (Value.vdict clean).dumps
        else (Value.vdict fs).dumps
      .ok (rpcResult request_id (.vdict
        [("content", .vlist [.vdict
           [("type", .vstr "text"), ("text", .vstr formatted)]])]))
  | _ => .error "AttributeError: object has no attribute get"

/-- `handle_jsonrpc_request` of `mcp_streaming_server.py`: reads
`request.get("method")` and `request.get("id")` (raising on a non-dict body),
then walks the literal method chain of the source - `initialize`,
`notifications/initialized`, `method.startswith("notifications/")` (which
raises `AttributeError` whenever `method` is not a string), `tools/list`,
`prompts/list`, `resources/list`, `tools/call`, and the final
method-not-found error.  `toolResult` stands for the value
`execute_tool_async` answers inside the `tools/call` branch; `.ok none` is a
notification acknowledged with no response body. -/
def handle_jsonrpc_request (request : Value) (toolResult : Value) :
    Except String (Option Value) :=
  match pyGet request "method" with
  | .error e => .error e
  | .ok method =>
    match pyGet request "id" with
    | .error e => .error e
    | .ok request_id =>
      if pyEqStr method "initialize" then
        .ok (some (rpcResult request_id (.vdict
          [("protocolVersion", .vstr "2024-11-05"),
           ("capabilities", .vdict [("tools", .vdict [])]),
           ("serverInfo", .vdict
             [("name", .vstr "llmcp-browser-automation"),
              ("version", .vstr "1.0.0")])])))
      else if pyEqStr method "notifications/initialized" then
        .ok none
      else
        match pyStartswith method "notifications/" with
        | .error e => .error e
        | .ok b =>
          if b then
            .ok none
          else if pyEqStr method "tools/list" then
            .ok (some (rpcResult request_id (.vdict [("tools", toolsListPayload)])))
          else if pyEqStr method "prompts/list" then
            .ok (some (rpcResult request_id (.vdict [("prompts", .vlist [])])))
          else if pyEqStr method "resources/list" then
            .ok (some (rpcResult request_id (.vdict [("resources", .vlist [])])))
          else if pyEqStr method "tools/call" then
            match toolsCallEnvelope request_id toolResult with
            | .error e => .error e
            | .ok v => .ok (some v)
          else
            .ok (some (rpcError request_id (-32601)
              ("Method not found: " ++ method.pystr)))

/-- An HTTP response: status code and JSON body. -/
structure HttpResponse where
  status : Nat
  body : Value

/-- `handle_message` of `mcp_streaming_server.py`, after the body parsed as
JSON: a JSON-RPC response is answered with status 200, a notification with
status 204, and any exception escaping `handle_jsonrpc_request` is converted
into the `{"code": -32000, "message": str(e)}` error envelope with HTTP
status 500. -/
def handle_message (data : Value) (toolResult : Value) : HttpResponse :=
  match handle_jsonrpc_request data toolResult with
  | .ok (some v) => { status := 200, body := v }
  | .ok none => { status := 204, body := .vnull }
  | .error e => { status := 500, body := rpcError .vnull (-32000) e }

/-- The outer `request.json()` step of `handle_message`: an unparsable body
is answered with the -32700 parse error and HTTP status 400 before
`handle_jsonrpc_request` is ever consulted. -/
def handle_message_route (parsedBody : Except String Value) (toolResult : Value) :
    HttpResponse :=
  match parsedBody with
  | .error _ => { status := 400, body := rpcError .vnull (-32700) "Parse error" }
  | .ok data => handle_message data toolResult

/-- Whether the FIFO fallback of `handle_chrome_response` would consume the
oldest queued request for this response (shorthand used to phrase "the
correlator cannot bind the result"). -/
def fifoConsumes (st : CorrState) (rd : Value) (ridv : Value) : Bool :=
  match st.queue with
  | [] => false
  | oldest :: _ =>
      if ridv.truthy then false
      else
        match findPending st.pending oldest with
        | some e => _validate_response_for_tool rd e.tool_name
        | none => false

/-- The outbound channel payload of a networked tool call: the command built
by `execute_tool` with the `source` tag attached by the (spec-modelled)
`send_command` callback, see `send_command_spec`. -/
def outboundPayload (tool_name request_id : String) (arguments : Fields) :
    Fields :=
  updateFields (buildCommand tool_name request_id arguments)
    [("source", .vstr "mcp")]

/-!
## Helper lemmas on the embedded dict and queue operations
-/

theorem getField_cons (k' : String) (v : Value) (rest : Fields) (k : String) :
    getField ((k', v) :: rest) k = if k' = k then some v else getField rest k := rfl

theorem setField_cons (k' : String) (v' : Value) (rest : Fields) (k : String)
    (v : Value) :
    setField ((k', v') :: rest) k v =
      if k' = k then (k, v) :: rest else (k', v') :: setField rest k v := rfl

theorem findPending_cons (k : String) (e : PendingRequest)
    (rest : List (String × PendingRequest)) (j : String) :
    findPending ((k, e) :: rest) j =
      if k = j then some e else findPending rest j := rfl

theorem storeResponse_cons (k : String) (e : PendingRequest)
    (rest : List (String × PendingRequest)) (id : String) (rd : Value) :
    storeResponse ((k, e) :: rest) id rd =
      if k = id then (k, resolveEntry e rd) :: rest
      else (k, e) :: storeResponse rest id rd := rfl

theorem popPending_cons (k : String) (e : PendingRequest)
    (rest : List (String × PendingRequest)) (id : String) :
    popPending ((k, e) :: rest) id =
      if k = id then rest else (k, e) :: popPending rest id := rfl

theorem removeQueue_cons (x : String) (rest : List String) (id : String) :
    removeQueue (x :: rest) id =
      if x = id then rest else x :: removeQueue rest id := rfl

theorem getField_setField (fs : Fields) (k j : String) (v : Value) :
    getField (setField fs k v) j = if k = j then some v else getField fs j := by
  induction fs with
  | nil => simp [setField, getField]
  | cons kv rest ih =>
      obtain ⟨k', v'⟩ := kv
      rw [setField_cons]
      by_cases hk : k' = k
      · rw [if_pos hk, getField_cons, getField_cons, hk]
        by_cases hj : k = j
        · rw [if_pos hj, if_pos hj]
        · rw [if_neg hj, if_neg hj, if_neg hj]
      · rw [if_neg hk, getField_cons, getField_cons]
        by_cases hj : k' = j
        · rw [if_pos hj, if_pos hj,
              if_neg (fun hc : k = j => hk (hc ▸ hj.symm ▸ rfl))]
        · rw [if_neg hj, if_neg hj, ih]

theorem mem_keys_setField (fs : Fields) (k j : String) (v : Value) :
    j ∈ (setField fs k v).map Prod.fst ↔ j ∈ fs.map Prod.fst ∨ j = k := by
  induction fs with
  | nil => simp [setField]
  | cons kv rest ih =>
      obtain ⟨k', v'⟩ := kv
      rw [setField_cons]
      by_cases hk : k' = k
      · rw [if_pos hk]
        subst hk
        simp only [List.map_cons, List.mem_cons]
        tauto
      · rw [if_neg hk]
        simp only [List.map_cons, List.mem_cons, ih]
        tauto

theorem getField_updateFields_not_mem (base args : Fields) (j : String)
    (h : j ∉ args.map Prod.fst) :
    getField (updateFields base args) j = getField base j := by
  induction args generalizing base with
  | nil => rfl
  | cons kv rest ih =>
      obtain ⟨k, v⟩ := kv
      simp only [List.map_cons, List.mem_cons, not_or] at h
      rw [updateFields, ih _ h.2, getField_setField,
          if_neg (fun hc : k = j => h.1 hc.symm)]

theorem getField_updateFields_mem (base args : Fields) (j : String)
    (hnd : (args.map Prod.fst).Nodup) (h : j ∈ args.map Prod.fst) :
    getField (updateFields base args) j = getField args j := by
  induction args generalizing base with
  | nil => simp at h
  | cons kv rest ih =>
      obtain ⟨k, v⟩ := kv
      simp only [List.map_cons, List.nodup_cons] at hnd
      by_cases hkj : j = k
      · subst hkj
        rw [updateFields, getField_updateFields_not_mem _ _ _ hnd.1,
            getField_setField, if_pos rfl, getField_cons, if_pos rfl]
      · have hmem : j ∈ rest.map Prod.fst := by
          simp only [List.map_cons, List.mem_cons] at h
          exact h.resolve_left hkj
        rw [updateFields, ih _ hnd.2 hmem, getField_cons,
            if_neg (fun hc : k = j => hkj hc.symm)]

theorem mem_keys_updateFields (base args : Fields) (j : String)
    (h : j ∈ (updateFields base args).map Prod.fst) :
    j ∈ base.map Prod.fst ∨ j ∈ args.map Prod.fst := by
  induction args generalizing base with
  | nil => exact Or.inl h
  | cons kv rest ih =>
      obtain ⟨k, v⟩ := kv
      rw [updateFields] at h
      rcases ih _ h with h' | h'
      · rcases (mem_keys_setField base k j v).mp h' with h'' | h''
        · exact Or.inl h''
        · exact Or.inr (by simp [h''])
      · exact Or.inr (by simp [h'])

theorem findPending_eq_none_of_not_mem
    (p : List (String × PendingRequest)) (id : String)
    (h : id ∉ p.map Prod.fst) : findPending p id = none := by
  induction p with
  | nil => rfl
  | cons kv rest ih =>
      obtain ⟨k, e⟩ := kv
      simp only [List.map_cons, List.mem_cons, not_or] at h
      rw [findPending_cons, if_neg (fun hc : k = id => h.1 hc.symm), ih h.2]

theorem findPending_storeResponse_self
    (p : List (String × PendingRequest)) (id : String) (rd : Value) :
    findPending (storeResponse p id rd) id =
      (findPending p id).map (fun e => resolveEntry e rd) := by
  induction p with
  | nil => rfl
  | cons kv rest ih =>
      obtain ⟨k, e⟩ := kv
      rw [storeResponse_cons]
      by_cases hk : k = id
      · rw [if_pos hk, findPending_cons, if_pos hk, findPending_cons,
            if_pos hk]
        rfl
      · rw [if_neg hk, findPending_cons, if_neg hk, findPending_cons,
            if_neg hk, ih]

theorem findPending_storeResponse_ne
    (p : List (String × PendingRequest)) (id j : String) (rd : Value)
    (h : j ≠ id) :
    findPending (storeResponse p id rd) j = findPending p j := by
  induction p with
  | nil => rfl
  | cons kv rest ih =>
      obtain ⟨k, e⟩ := kv
      rw [storeResponse_cons]
      by_cases hk : k = id
      · have hkj : ¬ k = j := fun hc => h (hc ▸ hk)
        rw [if_pos hk, findPending_cons, if_neg hkj, findPending_cons,
            if_neg hkj]
      · rw [if_neg hk, findPending_cons, findPending_cons]
        by_cases hj : k = j
        · rw [if_pos hj, if_pos hj]
        · rw [if_neg hj, if_neg hj, ih]

theorem findPending_popPending_ne
    (p : List (String × PendingRequest)) (id j : String) (h : j ≠ id) :
    findPending (popPending p id) j = findPending p j := by
  induction p with
  | nil => rfl
  | cons kv rest ih =>
      obtain ⟨k, e⟩ := kv
      rw [popPending_cons]
      by_cases hk : k = id
      · have hkj : ¬ k = j := fun hc => h (hc ▸ hk)
        rw [if_pos hk, findPending_cons, if_neg hkj]
      · rw [if_neg hk, findPending_cons, findPending_cons]
        by_cases hj : k = j
        · rw [if_pos hj, if_pos hj]
        · rw [if_neg hj, if_neg hj, ih]

theorem findPending_popPending_self
    (p : List (String × PendingRequest)) (id : String)
    (hnd : (p.map Prod.fst).Nodup) :
    findPending (popPending p id) id = none := by
  induction p with
  | nil => rfl
  | cons kv rest ih =>
      obtain ⟨k, e⟩ := kv
      simp only [List.map_cons, List.nodup_cons] at hnd
      rw [popPending_cons]
      by_cases hk : k = id
      · rw [if_pos hk]
        exact findPending_eq_none_of_not_mem rest id (hk ▸ hnd.1)
      · rw [if_neg hk, findPending_cons, if_neg hk, ih hnd.2]

theorem popPending_append_fresh
    (p : List (String × PendingRequest)) (id : String) (e : PendingRequest)
    (h : id ∉ p.map Prod.fst) :
    popPending (p ++ [(id, e)]) id = p := by
  induction p with
  | nil => simp [popPending]
  | cons kv rest ih =>
      obtain ⟨k, e'⟩ := kv
      simp only [List.map_cons, List.mem_cons, not_or] at h
      rw [List.cons_append, popPending_cons,
          if_neg (fun hc : k = id => h.1 hc.symm), ih h.2]

theorem removeQueue_append_fresh (q : List String) (id : String) (h : id ∉ q) :
    removeQueue (q ++ [id]) id = q := by
  induction q with
  | nil => simp [removeQueue]
  | cons x rest ih =>
      simp only [List.mem_cons, not_or] at h
      rw [List.cons_append, removeQueue_cons,
          if_neg (fun hc : x = id => h.1 hc.symm), ih h.2]

theorem not_mem_removeQueue_self (q : List String) (id : String)
    (hnd : q.Nodup) : id ∉ removeQueue q id := by
  induction q with
  | nil => simp [removeQueue]
  | cons x rest ih =>
      simp only [List.nodup_cons] at hnd
      rw [removeQueue_cons]
      by_cases hx : x = id
      · rw [if_pos hx]
        exact fun hc => hnd.1 (hx ▸ hc)
      · rw [if_neg hx]
        simp only [List.mem_cons, not_or]
        exact ⟨fun hc => hx hc.symm, ih hnd.2⟩

theorem finish_register_fresh (st : CorrState) (id tool : String) (now : Nat)
    (hp : id ∉ st.pending.map Prod.fst) (hq : id ∉ st.queue) :
    finish_request (register_request st id tool now) id = st := by
  cases st with
  | mk p q =>
      simp only [finish_request, register_request]
      congr 1
      · exact popPending_append_fresh p id _ hp
      · exact removeQueue_append_fresh q id hq

theorem broadcastLoop_spec (l : List WSClient) (succ : Nat)
    (disc : List WSClient) :
    broadcastLoop l succ disc =
      (succ + (l.filter (fun c => c.sendOk)).length,
       disc ++ l.filter (fun c => !c.sendOk)) := by
  induction l generalizing succ disc with
  | nil => simp [broadcastLoop]
  | cons c rest ih =>
      by_cases hc : c.sendOk
      · simp [broadcastLoop, hc, ih]
        omega
      · simp [broadcastLoop, hc, ih, List.append_assoc]

/-- Evaluation of `handle_chrome_response` once the command envelope and the
echoed request id have been extracted successfully. -/
theorem handle_chrome_response_eval (st : CorrState) (rd cmd ridv : Value)
    (hrd : pyGet rd "command" = .ok cmd)
    (hrid : pyGet cmd "request_id" = .ok ridv) :
    handle_chrome_response st rd =
      match directKey ridv st.pending with
      | .error e => .error e
      | .ok (some id) =>
          .ok ({ st with pending := storeResponse st.pending id rd }, .direct id)
      | .ok none =>
          match st.queue with
          | oldest_id :: restQueue =>
              if !ridv.truthy then
                match findPending st.pending oldest_id with
                | some pending =>
                    if _validate_response_for_tool rd pending.tool_name then
                      .ok ({ pending := storeResponse st.pending oldest_id rd,
                             queue := restQueue }, .fifo oldest_id)
                    else .ok (st, .unmatched ridv)
                | none => .ok (st, .unmatched ridv)
              else .ok (st, .unmatched ridv)
          | [] => .ok (st, .unmatched ridv) := by
  unfold handle_chrome_response
  simp only [hrd, hrid]

theorem keys_storeResponse (p : List (String × PendingRequest)) (id : String)
    (rd : Value) :
    (storeResponse p id rd).map Prod.fst = p.map Prod.fst := by
  induction p with
  | nil => rfl
  | cons kv rest ih =>
      obtain ⟨k, e⟩ := kv
      rw [storeResponse_cons]
      by_cases hk : k = id
      · rw [if_pos hk]
        rfl
      · rw [if_neg hk]
        simp [ih]

/-- C1: when an incoming result's echoed command carries the `request_id` of a
tracked PendingRequest, `handle_chrome_response` binds the result to exactly
that entry (container filled, event signalled), leaves every other pending
entry and the queue untouched - also with several requests outstanding - and
the matched entry is removed from tracking when the woken caller runs the
cleanup of `execute_tool` (its `finally` block), which removes that entry and
no other. -/
theorem direct_match_resolves_exactly_matching_entry
    (st : CorrState) (rd : Value) (fs cfs : Fields) (rid : String)
    (entry : PendingRequest)
    (hrd : rd = .vdict fs)
    (hcmd : getField fs "command" = some (.vdict cfs))
    (hrid : getField cfs "request_id" = some (.vstr rid))
    (hne : rid ≠ "")
    (htracked : findPending st.pending rid = some entry)
    (hnd : (st.pending.map Prod.fst).Nodup)
    (hqnd : st.queue.Nodup) :
    ∃ st1, handle_chrome_response st rd = .ok (st1, .direct rid)
      ∧ findPending st1.pending rid = some (resolveEntry entry rd)
      ∧ (resolveEntry entry rd).eventSet = true
      ∧ (resolveEntry entry rd).containerData = rd
      ∧ (∀ j, j ≠ rid → findPending st1.pending j = findPending st.pending j)
      ∧ st1.queue = st.queue
      ∧ findPending (finish_request st1 rid).pending rid = none
      ∧ rid ∉ (finish_request st1 rid).queue
      ∧ (∀ j, j ≠ rid →
          findPending (finish_request st1 rid).pending j = findPending st.pending j) := by
  have hpy1 : pyGet rd "command" = .ok (.vdict cfs) := by
    rw [hrd]
    simp [pyGet, hcmd]
  have hpy2 : pyGet (Value.vdict cfs) "request_id" = .ok (.vstr rid) := by
    simp [pyGet, hrid]
  have hdk : directKey (.vstr rid) st.pending = .ok (some rid) := by
    simp [directKey, Value.truthy, hne, Value.hashable, htracked]
  refine ⟨{ st with pending := storeResponse st.pending rid rd }, ?_, ?_, rfl, rfl,
          ?_, rfl, ?_, ?_, ?_⟩
  · rw [handle_chrome_response_eval st rd _ _ hpy1 hpy2, hdk]
  · rw [findPending_storeResponse_self, htracked, Option.map]
  · intro j hj
    exact findPending_storeResponse_ne st.pending rid j rd hj
  · have hnd1 : ((storeResponse st.pending rid rd).map Prod.fst).Nodup := by
      rw [keys_storeResponse]
      exact hnd
    exact findPending_popPending_self _ rid hnd1
  · exact not_mem_removeQueue_self st.queue rid hqnd
  · intro j hj
    calc findPending (popPending (storeResponse st.pending rid rd) rid) j
        = findPending (storeResponse st.pending rid rd) j :=
          findPending_popPending_ne _ rid j hj
      _ = findPending st.pending j :=
          findPending_storeResponse_ne st.pending rid j rd hj

/-- Concrete instantiation of the C1 theorem: two outstanding requests with
distinct ids, the result for id "a" binds entry "a", leaves entry "b" alone,
and cleanup removes "a" from tracking. -/
theorem direct_match_resolves_exactly_matching_entry_witness :
    ∃ st1,
      handle_chrome_response
        { pending :=
            [("a", { eventSet := false, containerData := .vnull,
                     tool_name := "click_element", timestamp := 1 }),
             ("b", { eventSet := false, containerData := .vnull,
                     tool_name := "get_page_info", timestamp := 2 })],
          queue := ["a", "b"] }
        (.vdict [("type", .vstr "dom_operation_result"),
                 ("command", .vdict [("request_id", .vstr "a"),
                                     ("source", .vstr "mcp")]),
                 ("result", .vdict [("success", .vbool true)])])
        = .ok (st1, .direct "a")
      ∧ findPending st1.pending "a" =
          some (resolveEntry
            { eventSet := false, containerData := .vnull,
              tool_name := "click_element", timestamp := 1 }
            (.vdict [("type", .vstr "dom_operation_result"),
                     ("command", .vdict [("request_id", .vstr "a"),
                                         ("source", .vstr "mcp")]),
                     ("result", .vdict [("success", .vbool true)])]))
      ∧ (∀ j, j ≠ "a" → findPending st1.pending j =
          findPending
            [("a", { eventSet := false, containerData := .vnull,
                     tool_name := "click_element", timestamp := 1 }),
             ("b", { eventSet := false, containerData := .vnull,
                     tool_name := "get_page_info", timestamp := 2 })] j)
      ∧ findPending (finish_request st1 "a").pending "a" = none := by
  obtain ⟨st1, h1, h2, _, _, h5, _, h7, _, _⟩ :=
    direct_match_resolves_exactly_matching_entry
      { pending :=
          [("a", { eventSet := false, containerData := .vnull,
                   tool_name := "click_element", timestamp := 1 }),
           ("b", { eventSet := false, containerData := .vnull,
                   tool_name := "get_page_info", timestamp := 2 })],
        queue := ["a", "b"] }
      (.vdict [("type", .vstr "dom_operation_result"),
               ("command", .vdict [("request_id", .vstr "a"),
                                   ("source", .vstr "mcp")]),
               ("result", .vdict [("success", .vbool true)])])
      _ _ "a" _ rfl (by rfl) (by rfl) (by decide) (by rfl)
      (by decide) (by decide)
  exact ⟨st1, h1, h2, h5, h7⟩

/-- C2: a result without a usable request id is offered to the oldest pending
request only; it is consumed (container bound, event set, id dequeued)
exactly when `_validate_response_for_tool` accepts the shape for that
request's tool, and on a validator mismatch the correlator state is returned
untouched - the oldest request stays pending and the result is reported
unmatched, never force-bound. -/
theorem fifo_fallback_gated_by_validator
    (st : CorrState) (rd cmd ridv : Value) (oldest : String)
    (restQ : List String) (entry : PendingRequest)
    (hrd : pyGet rd "command" = .ok cmd)
    (hrid : pyGet cmd "request_id" = .ok ridv)
    (hfalsy : ridv.truthy = false)
    (hq : st.queue = oldest :: restQ)
    (hold : findPending st.pending oldest = some entry) :
    (_validate_response_for_tool rd entry.tool_name = true →
        handle_chrome_response st rd =
          .ok ({ pending := storeResponse st.pending oldest rd, queue := restQ },
               .fifo oldest)
      ∧ findPending (storeResponse st.pending oldest rd) oldest =
          some (resolveEntry entry rd))
  ∧ (_validate_response_for_tool rd entry.tool_name = false →
        handle_chrome_response st rd = .ok (st, .unmatched ridv)) := by
  have hdk : directKey ridv st.pending = .ok none := by
    simp [directKey, hfalsy]
  rw [handle_chrome_response_eval st rd cmd ridv hrd hrid]
  simp only [hdk, hq, hfalsy, Bool.not_false, if_true, hold]
  constructor
  · intro hv
    simp only [hv, if_true]
    exact ⟨by trivial, by rw [findPending_storeResponse_self, hold]; rfl⟩
  · intro hv
    rw [if_neg (by simp [hv])]

/-- Concrete instantiation of the C2 theorem: an id-less result carrying a
generic `result` key is FIFO-consumed by the oldest request, while an id-less
result with no recognizable shape leaves the state untouched. -/
theorem fifo_fallback_gated_by_validator_witness :
    (handle_chrome_response
        { pending := [("q1", { eventSet := false, containerData := .vnull,
                               tool_name := "get_page_info", timestamp := 3 })],
          queue := ["q1"] }
        (.vdict [("command", .vdict []),
                 ("result", .vdict [("success", .vbool true)])]) =
      .ok ({ pending :=
               storeResponse
                 [("q1", { eventSet := false, containerData := .vnull,
                           tool_name := "get_page_info", timestamp := 3 })]
                 "q1"
                 (.vdict [("command", .vdict []),
                          ("result", .vdict [("success", .vbool true)])]),
             queue := [] }, .fifo "q1"))
  ∧ (handle_chrome_response
        { pending := [("q1", { eventSet := false, containerData := .vnull,
                               tool_name := "get_page_info", timestamp := 3 })],
          queue := ["q1"] }
        (.vdict [("command", .vdict [])]) =
      .ok ({ pending := [("q1", { eventSet := false, containerData := .vnull,
                                  tool_name := "get_page_info", timestamp := 3 })],
             queue := ["q1"] }, .unmatched .vnull)) := by
  constructor
  · exact ((fifo_fallback_gated_by_validator
      { pending := [("q1", { eventSet := false, containerData := .vnull,
                             tool_name := "get_page_info", timestamp := 3 })],
        queue := ["q1"] }
      (.vdict [("command", .vdict []),
               ("result", .vdict [("success", .vbool true)])])
      (.vdict []) .vnull "q1" [] _
      (by rfl) (by rfl) (by rfl) rfl (by rfl)).1 (by rfl)).1
  · exact (fifo_fallback_gated_by_validator
      { pending := [("q1", { eventSet := false, containerData := .vnull,
                             tool_name := "get_page_info", timestamp := 3 })],
        queue := ["q1"] }
      (.vdict [("command", .vdict [])])
      (.vdict []) .vnull "q1" [] _
      (by rfl) (by rfl) (by rfl) rfl (by rfl)).2 (by rfl)

/-- C9: `_validate_response_for_tool` passes every dict holding one of the
generic keys `success`, `result`, `error`, `type` regardless of the tool name
- in particular every channel envelope of type `dom_operation_result` passes
for every tool - and the tool-specific field checks decide only dicts lacking
all four generic keys. -/
theorem validate_generic_keys_pass_for_every_tool :
    (∀ (fs : Fields) (tool_name : String),
        ((getField fs "success").isSome || (getField fs "result").isSome ||
         (getField fs "error").isSome || (getField fs "type").isSome) = true →
        _validate_response_for_tool (.vdict fs) tool_name = true)
  ∧ (∀ (fs : Fields) (tool_name : String),
        getField fs "type" = some (.vstr "dom_operation_result") →
        _validate_response_for_tool (.vdict fs) tool_name = true)
  ∧ (∀ (fs : Fields) (tool_name : String),
        getField fs "success" = none → getField fs "result" = none →
        getField fs "error" = none → getField fs "type" = none →
        _validate_response_for_tool (.vdict fs) tool_name =
          ((tool_name = "get_page_info" &&
             ((getField fs "url").isSome || (getField fs "title").isSome)) ||
           ((tool_name = "get_element_text" ||
             tool_name = "get_last_clicked_element") &&
             (getField fs "element").isSome))) := by
  refine ⟨?_, ?_, ?_⟩
  · intro fs tool_name h
    simp [_validate_response_for_tool, h]
  · intro fs tool_name h
    simp [_validate_response_for_tool, h]
  · intro fs tool_name h1 h2 h3 h4
    simp only [_validate_response_for_tool, h1, h2, h3, h4, Option.isSome_none,
               Bool.or_self, Bool.false_or, Bool.or_false, if_false]
    by_cases hp : (tool_name = "get_page_info" &&
        ((getField fs "url").isSome || (getField fs "title").isSome)) = true
    · simp [hp]
    · simp only [Bool.not_eq_true] at hp
      simp only [hp, Bool.false_or]
      by_cases he : ((tool_name = "get_element_text" ||
          tool_name = "get_last_clicked_element") &&
          (getField fs "element").isSome) = true
      · simp [he]
      · simp only [Bool.not_eq_true] at he
        simp [hp, he]

/-- Concrete instantiation of the C9 theorem: a bare `{"success": ...}` dict
passes for an unrelated tool, the channel envelope type passes for every
tool, and a dict with none of the generic keys falls back to the
tool-specific checks. -/
theorem validate_generic_keys_pass_for_every_tool_witness :
    _validate_response_for_tool
        (.vdict [("success", .vbool true)]) "click_element" = true
  ∧ _validate_response_for_tool
        (.vdict [("type", .vstr "dom_operation_result")]) "input_text" = true
  ∧ _validate_response_for_tool
        (.vdict [("url", .vstr "https://example.test")]) "get_page_info" =
      (("get_page_info" = "get_page_info" &&
         ((getField [("url", Value.vstr "https://example.test")] "url").isSome ||
          (getField [("url", Value.vstr "https://example.test")] "title").isSome)) ||
       (("get_page_info" = "get_element_text" ||
         "get_page_info" = "get_last_clicked_element") &&
         (getField [("url", Value.vstr "https://example.test")] "element").isSome)) := by
  refine ⟨?_, ?_, ?_⟩
  · exact validate_generic_keys_pass_for_every_tool.1 _ _ (by rfl)
  · exact validate_generic_keys_pass_for_every_tool.2.1 _ _ (by rfl)
  · exact validate_generic_keys_pass_for_every_tool.2.2 _ _ rfl rfl rfl rfl

set_option maxRecDepth 8192

/-- C3 counterexample: with one tracked request "a" whose waiter already
timed out (the cleanup has not yet run - `execute_tool` is inside its
one-second grace sleep), a result for "a" arriving after the timeout still
direct-matches the still-tracked entry, and the grace-window check then
returns that late response to the caller instead of the timeout error - so a
result arriving after the timeout does resolve the caller, contradicting the
claim. -/
theorem late_result_resolves_timed_out_caller_counterexample :
    handle_chrome_response
        { pending := [("a", { eventSet := false, containerData := .vnull,
                              tool_name := "click_element", timestamp := 0 })],
          queue := ["a"] }
        (.vdict [("command", .vdict [("request_id", .vstr "a")]),
                 ("result", .vdict [("success", .vbool true)])]) =
      .ok ({ pending := [("a", { eventSet := true,
                                 containerData :=
                                   .vdict [("command",
                                             .vdict [("request_id", .vstr "a")]),
                                           ("result",
                                             .vdict [("success", .vbool true)])],
                                 tool_name := "click_element", timestamp := 0 })],
             queue := ["a"] }, .direct "a")
  ∧ execute_tool_on_timeout true .vnull
        (.vdict [("command", .vdict [("request_id", .vstr "a")]),
                 ("result", .vdict [("success", .vbool true)])]) 30 =
      .vdict [("command", .vdict [("request_id", .vstr "a")]),
              ("result", .vdict [("success", .vbool true)])]
  ∧ isTimeoutError
        (.vdict [("command", .vdict [("request_id", .vstr "a")]),
                 ("result", .vdict [("success", .vbool true)])]) = false := by
  refine ⟨?_, ?_, ?_⟩ <;> rfl



/-- C3 (amended): a timed-out request stays tracked through the one-second
grace window, during which an arriving result still resolves the caller
(see the counterexample); once `execute_tool` returns, its cleanup removes
the entry, after which a result echoing that id is reported unmatched with
the state untouched and resolves no caller; and when no data arrives at all
the caller receives the timeout error naming the 30-second window. -/
theorem timeout_cleanup_then_late_result_unmatched
    (st : CorrState) (rid : String) (rd : Value) (fs cfs : Fields)
    (hnd : (st.pending.map Prod.fst).Nodup)
    (hqnd : st.queue.Nodup)
    (hrd : rd = .vdict fs)
    (hcmd : getField fs "command" = some (.vdict cfs))
    (hrid : getField cfs "request_id" = some (.vstr rid))
    (hne : rid ≠ "") :
    findPending (finish_request st rid).pending rid = none
  ∧ rid ∉ (finish_request st rid).queue
  ∧ handle_chrome_response (finish_request st rid) rd =
      .ok (finish_request st rid, .unmatched (.vstr rid))
  ∧ (∀ q : Bool, execute_tool_on_timeout q .vnull .vnull 30 =
      .vdict [("success", .vbool false),
              ("error", .vstr ("Request timeout - Chrome extension did not respond within "
                               ++ toString (30 : Nat) ++ " seconds"))]
      ∧ isTimeoutError (execute_tool_on_timeout q .vnull .vnull 30) = true) := by
  have hgone : findPending (finish_request st rid).pending rid = none :=
    findPending_popPending_self st.pending rid hnd
  have hpy1 : pyGet rd "command" = .ok (.vdict cfs) := by
    rw [hrd]
    simp [pyGet, hcmd]
  have hpy2 : pyGet (Value.vdict cfs) "request_id" = .ok (.vstr rid) := by
    simp [pyGet, hrid]
  have htr : (Value.vstr rid).truthy = true := by
    simp [Value.truthy, hne]
  have hdk : directKey (.vstr rid) (finish_request st rid).pending = .ok none := by
    simp [directKey, htr, Value.hashable, hgone]
  refine ⟨hgone, not_mem_removeQueue_self st.queue rid hqnd, ?_, ?_⟩
  · rw [handle_chrome_response_eval _ rd _ _ hpy1 hpy2]
    simp only [hdk]
    cases hq : (finish_request st rid).queue with
    | nil => rfl
    | cons oldest restQ => simp [htr]
  · intro q
    cases q <;> exact ⟨rfl, by decide⟩

/-- Concrete instantiation of the amended C3 theorem: after the cleanup of the
timed-out request "a", a late result for "a" is unmatched and the state stays
empty; with no late data the caller gets the 30-second timeout error. -/
theorem timeout_cleanup_then_late_result_unmatched_witness :
    findPending (finish_request
        { pending := [("a", { eventSet := false, containerData := .vnull,
                              tool_name := "get_page_info", timestamp := 0 })],
          queue := ["a"] } "a").pending "a" = none
  ∧ handle_chrome_response
        (finish_request
          { pending := [("a", { eventSet := false, containerData := .vnull,
                                tool_name := "get_page_info", timestamp := 0 })],
            queue := ["a"] } "a")
        (.vdict [("command", .vdict [("request_id", .vstr "a")])]) =
      .ok (finish_request
            { pending := [("a", { eventSet := false, containerData := .vnull,
                                  tool_name := "get_page_info", timestamp := 0 })],
              queue := ["a"] } "a", .unmatched (.vstr "a"))
  ∧ isTimeoutError (execute_tool_on_timeout true .vnull .vnull 30) = true := by
  obtain ⟨h1, _, h3, h4⟩ :=
    timeout_cleanup_then_late_result_unmatched
      { pending := [("a", { eventSet := false, containerData := .vnull,
                            tool_name := "get_page_info", timestamp := 0 })],
        queue := ["a"] }
      "a"
      (.vdict [("command", .vdict [("request_id", .vstr "a")])])
      _ _ (by decide) (by decide) rfl (by rfl) (by rfl) (by decide)
  exact ⟨h1, h3, (h4 true).2⟩

/-- C8 counterexample: a result of arbitrary dict shape that lacks the echoed
command envelope makes `handle_chrome_response` raise (`.get("request_id")`
is called on `None`), instead of logging and discarding it - contradicting
the claim that such results never raise. -/
theorem unmatched_result_raises_counterexample :
    handle_chrome_response
        { pending := [("a", { eventSet := false, containerData := .vnull,
                              tool_name := "find_element", timestamp := 0 })],
          queue := ["a"] }
        (.vdict [("result", .vdict [("success", .vbool true)])]) =
      .error "AttributeError: object has no attribute get" := by
  rfl

/-- C8 (amended): restricted to results whose echoed command envelope is a
dict - the shape the channel protocol actually delivers - and whose request
id is a hashable value, a result the correlator cannot bind (no direct match,
no FIFO consumption) is reported as unmatched and discarded with the whole
correlator state returned untouched: no exception is raised and no pending
request is disturbed. -/
theorem unbindable_result_logged_and_discarded
    (st : CorrState) (rd : Value) (cfs : Fields) (ridv : Value)
    (hrd : pyGet rd "command" = .ok (.vdict cfs))
    (hridv : (getField cfs "request_id").getD .vnull = ridv)
    (hdk : directKey ridv st.pending = .ok none)
    (hfifo : fifoConsumes st rd ridv = false) :
    handle_chrome_response st rd = .ok (st, .unmatched ridv) := by
  have hpy2 : pyGet (Value.vdict cfs) "request_id" = .ok ridv := by
    simp [pyGet, hridv]
  rw [handle_chrome_response_eval st rd _ _ hrd hpy2]
  cases hq : st.queue with
  | nil => simp [hdk]
  | cons oldest restQ =>
      have h := hfifo
      unfold fifoConsumes at h
      rw [hq] at h
      cases htr : ridv.truthy with
      | true => simp [hdk, htr]
      | false =>
          cases hfp : findPending st.pending oldest with
          | none => simp [hdk, htr, hfp]
          | some e =>
              have hval : _validate_response_for_tool rd e.tool_name = false := by
                have h2 : (if ridv.truthy = true then false
                    else match findPending st.pending oldest with
                         | some e => _validate_response_for_tool rd e.tool_name
                         | none => false) = false := h
                rw [if_neg (by simp [htr]), hfp] at h2
                exact h2
              simp [hdk, htr, hfp, hval]

/-- Concrete instantiation of the amended C8 theorem: an id-less response
whose shape fits no tool is unmatched and the sole pending request is left
exactly as it was. -/
theorem unbindable_result_logged_and_discarded_witness :
    handle_chrome_response
        { pending := [("a", { eventSet := false, containerData := .vnull,
                              tool_name := "click_element", timestamp := 7 })],
          queue := ["a"] }
        (.vdict [("command", .vdict []), ("weird", .vnum 3)]) =
      .ok ({ pending := [("a", { eventSet := false, containerData := .vnull,
                                 tool_name := "click_element", timestamp := 7 })],
             queue := ["a"] }, .unmatched .vnull) :=
  unbindable_result_logged_and_discarded
    { pending := [("a", { eventSet := false, containerData := .vnull,
                          tool_name := "click_element", timestamp := 7 })],
      queue := ["a"] }
    (.vdict [("command", .vdict []), ("weird", .vnum 3)])
    [] .vnull (by rfl) rfl (by rfl) (by rfl)

theorem filter_not_contains_disconnected (clients : List WSClient) :
    clients.filter
        (fun c => !((clients.filter (fun c => !c.sendOk)).contains c)) =
      clients.filter (fun c => c.sendOk) := by
  apply List.filter_congr
  intro c hc
  by_cases hs : c.sendOk
  · have : c ∉ clients.filter (fun c => !c.sendOk) := by
      intro hmem
      have := List.of_mem_filter hmem
      simp [hs] at this
    simp [hs, List.contains, this, List.elem_iff]
  · have : c ∈ clients.filter (fun c => !c.sendOk) := by
      refine List.mem_filter.mpr ⟨hc, ?_⟩
      simp [hs]
    simp only [Bool.not_eq_true] at hs
    simp [hs, List.contains, this, List.elem_iff]

/-- C7: `broadcast_command` serializes and sends the command to every
connected client, returns `True` exactly when at least one individual send
succeeded, prunes from the pool exactly the clients whose send failed, and
one client's failure never prevents delivery to the rest (whether a client
keeps its place and receives its send depends only on its own send outcome,
for arbitrary surrounding pools). -/
theorem broadcast_reaches_all_and_prunes_failures
    (clients : List WSClient) (command : Value) :
    (∀ c ∈ clients, (c, command) ∈ (broadcast_command clients command).sends)
  ∧ (broadcast_command clients command).ok = clients.any (fun c => c.sendOk)
  ∧ (broadcast_command clients command).remaining =
      clients.filter (fun c => c.sendOk)
  ∧ (∀ c ∈ clients, c.sendOk = true →
      c ∈ (broadcast_command clients command).remaining) := by
  cases hcl : clients with
  | nil =>
      refine ⟨by simp, ?_, by simp [broadcast_command], by simp⟩
      simp [broadcast_command]
  | cons c0 rest =>
      have hne : ((c0 :: rest : List WSClient).isEmpty) = false := by rfl
      have hbr : broadcast_command (c0 :: rest) command =
          { sends := (c0 :: rest).map (fun c => (c, command)),
            remaining := (c0 :: rest).filter
              (fun c => !((((c0 :: rest).filter (fun c => !c.sendOk))).contains c)),
            ok := decide (0 + ((c0 :: rest).filter (fun c => c.sendOk)).length > 0) } := by
        unfold broadcast_command
        rw [hne]
        simp only [Bool.false_eq_true, if_false, broadcastLoop_spec, List.nil_append]
      refine ⟨?_, ?_, ?_, ?_⟩
      · intro c hcmem
        rw [hbr]
        simp only [List.mem_map]
        exact ⟨c, hcmem, rfl⟩
      · rw [hbr]
        simp only [Nat.zero_add]
        rcases hany : (c0 :: rest).any (fun c => c.sendOk) with _ | _
        · simp only [List.any_eq_false] at hany
          have : (c0 :: rest).filter (fun c => c.sendOk) = [] :=
            List.filter_eq_nil_iff.mpr (fun a ha => by simp [hany a ha])
          simp [this]
        · simp only [List.any_eq_true] at hany
          obtain ⟨a, ha, hsa⟩ := hany
          have : a ∈ (c0 :: rest).filter (fun c => c.sendOk) :=
            List.mem_filter.mpr ⟨ha, hsa⟩
          have hlen : 0 < ((c0 :: rest).filter (fun c => c.sendOk)).length :=
            List.length_pos.mpr (fun hnil => by simp [hnil] at this)
          simp [hlen]
      · rw [hbr]
        exact filter_not_contains_disconnected (c0 :: rest)
      · intro c hcmem hsok
        rw [hbr, filter_not_contains_disconnected (c0 :: rest)]
        exact List.mem_filter.mpr ⟨hcmem, hsok⟩

/-- Concrete instantiation of the C7 theorem: a pool with one failing and two
working clients - the command reaches both working clients, the call reports
success, and only the failing client is pruned. -/
theorem broadcast_reaches_all_and_prunes_failures_witness :
    (({ cid := 1, sendOk := true } : WSClient), Value.vstr "cmd") ∈
        (broadcast_command
          [{ cid := 1, sendOk := true }, { cid := 2, sendOk := false },
           { cid := 3, sendOk := true }] (Value.vstr "cmd")).sends
  ∧ (broadcast_command
        [{ cid := 1, sendOk := true }, { cid := 2, sendOk := false },
         { cid := 3, sendOk := true }] (Value.vstr "cmd")).ok =
      ([{ cid := 1, sendOk := true }, { cid := 2, sendOk := false },
        { cid := 3, sendOk := true }] : List WSClient).any (fun c => c.sendOk)
  ∧ (broadcast_command
        [{ cid := 1, sendOk := true }, { cid := 2, sendOk := false },
         { cid := 3, sendOk := true }] (Value.vstr "cmd")).remaining =
      ([{ cid := 1, sendOk := true }, { cid := 2, sendOk := false },
        { cid := 3, sendOk := true }] : List WSClient).filter (fun c => c.sendOk) := by
  obtain ⟨h1, h2, h3, _⟩ :=
    broadcast_reaches_all_and_prunes_failures
      [{ cid := 1, sendOk := true }, { cid := 2, sendOk := false },
       { cid := 3, sendOk := true }] (Value.vstr "cmd")
  exact ⟨h1 _ (by simp), h2, h3⟩

/-- C4: a networked tool call issued while zero extension clients are
connected fails straight after the broadcast reports no reachable client:
`execute_tool` returns the "No WebSocket clients connected" error dict on the
send path itself - the `.sendFailed` outcome, reached before any wait on the
response event, so the caller never enters the 30-second timeout window - and
the cleanup in `finally` leaves the correlator state exactly as before the
call. -/
theorem zero_clients_immediate_error
    (tool_name : String) (arguments : Fields) (request_id : String) (now : Nat)
    (savedSelectors : Value) (st : CorrState)
    (hnotlocal : tool_name ≠ "list_saved_selectors")
    (hfreshp : request_id ∉ st.pending.map Prod.fst)
    (hfreshq : request_id ∉ st.queue) :
    execute_tool_dispatch tool_name arguments request_id now savedSelectors
        true [] st =
      (st,
       some (broadcast_command []
         (.vdict (updateFields (buildCommand tool_name request_id arguments)
           [("source", .vstr "mcp")]))),
       .sendFailed (.vdict [("success", .vbool false),
                            ("error", .vstr "No WebSocket clients connected")]))
  ∧ (broadcast_command []
       (.vdict (updateFields (buildCommand tool_name request_id arguments)
         [("source", .vstr "mcp")]))).ok = false := by
  have hfin := finish_register_fresh st request_id tool_name now hfreshp hfreshq
  constructor
  · unfold execute_tool_dispatch
    rw [if_neg hnotlocal]
    simp only [send_command_spec, broadcast_command, List.isEmpty_nil, if_true,
               statusIsSent, sendErrorMsg, getField, hfin]
    rfl
  · simp [broadcast_command]

/-- Concrete instantiation of the C4 theorem: `click_element` dispatched with
no connected client fails with the "No WebSocket clients connected" error
without entering the waiting phase, leaving an empty correlator state. -/
theorem zero_clients_immediate_error_witness :
    execute_tool_dispatch "click_element" [("selector", .vstr "#submit")]
        "r1" 0 .vnull true [] { pending := [], queue := [] } =
      ({ pending := [], queue := [] },
       some (broadcast_command []
         (.vdict (updateFields (buildCommand "click_element" "r1"
             [("selector", .vstr "#submit")])
           [("source", .vstr "mcp")]))),
       .sendFailed (.vdict [("success", .vbool false),
                            ("error", .vstr "No WebSocket clients connected")])) :=
  (zero_clients_immediate_error "click_element" [("selector", .vstr "#submit")]
    "r1" 0 .vnull { pending := [], queue := [] }
    (by decide) (by simp) (by simp)).1

theorem mem_keys_of_getField (fs : Fields) (k : String) (v : Value)
    (h : getField fs k = some v) : k ∈ fs.map Prod.fst := by
  induction fs with
  | nil => simp [getField] at h
  | cons kv rest ih =>
      obtain ⟨k', v'⟩ := kv
      rw [getField_cons] at h
      by_cases hk : k' = k
      · simp [hk]
      · rw [if_neg hk] at h
        simp [ih h]

/-- C5 (spec-modelled source attachment, see `send_command_spec`): every
networked tool call broadcasts a payload whose `type` is "dom_operation",
whose `action` is the mapped tool action, whose `request_id` is the freshly
minted id the dispatcher registered, whose `source` is "mcp", which carries
every supplied argument unchanged, and whose keys all come from
`{type, action, selector, text, key, request_id, source}`. -/
theorem outbound_command_shape
    (tool_name : String) (arguments : Fields) (request_id : String) (now : Nat)
    (savedSelectors : Value) (clients : List WSClient) (st : CorrState)
    (hnotlocal : tool_name ≠ "list_saved_selectors")
    (hkeys : ∀ k ∈ arguments.map Prod.fst, k ∈ ["selector", "text", "key"])
    (hnd : (arguments.map Prod.fst).Nodup) :
    (execute_tool_dispatch tool_name arguments request_id now savedSelectors
        true clients st).2.1 =
      some (broadcast_command clients
        (.vdict (outboundPayload tool_name request_id arguments)))
  ∧ getField (outboundPayload tool_name request_id arguments) "type" =
      some (.vstr "dom_operation")
  ∧ getField (outboundPayload tool_name request_id arguments) "action" =
      some (.vstr (actionFor tool_name))
  ∧ getField (outboundPayload tool_name request_id arguments) "request_id" =
      some (.vstr request_id)
  ∧ getField (outboundPayload tool_name request_id arguments) "source" =
      some (.vstr "mcp")
  ∧ (∀ k v, getField arguments k = some v →
      getField (outboundPayload tool_name request_id arguments) k = some v)
  ∧ (∀ k ∈ (outboundPayload tool_name request_id arguments).map Prod.fst,
      k ∈ ["type", "action", "request_id", "source",
           "selector", "text", "key"]) := by
  have hargnotsrc : ∀ k ∈ arguments.map Prod.fst, k ≠ "source" := by
    intro k hk hc
    have := hkeys k hk
    rw [hc] at this
    simp at this
  refine ⟨?_, ?_, ?_, ?_, ?_, ?_, ?_⟩
  · have hsend : (send_command_spec true clients
        (buildCommand tool_name request_id arguments) "mcp").1 =
        some (broadcast_command clients
          (.vdict (outboundPayload tool_name request_id arguments))) := by
      unfold send_command_spec
      simp only [if_true]
      split
      · rfl
      · rfl
    simp only [execute_tool_dispatch]
    rw [if_neg hnotlocal]
    split
    · exact hsend
    · exact hsend
  · have hnm : "type" ∉ arguments.map Prod.fst := by
      intro hmem
      have := hkeys _ hmem
      simp at this
    unfold outboundPayload buildCommand
    rw [getField_updateFields_not_mem _ _ _ (by simp),
        getField_updateFields_not_mem _ _ _ hnm]
    rfl
  · have hnm : "action" ∉ arguments.map Prod.fst := by
      intro hmem
      have := hkeys _ hmem
      simp at this
    unfold outboundPayload buildCommand
    rw [getField_updateFields_not_mem _ _ _ (by simp),
        getField_updateFields_not_mem _ _ _ hnm]
    rfl
  · have hnm : "request_id" ∉ arguments.map Prod.fst := by
      intro hmem
      have := hkeys _ hmem
      simp at this
    unfold outboundPayload buildCommand
    rw [getField_updateFields_not_mem _ _ _ (by simp),
        getField_updateFields_not_mem _ _ _ hnm]
    rfl
  · unfold outboundPayload
    rw [getField_updateFields_mem _ _ _ (by simp) (by simp)]
    rfl
  · intro k v hkv
    have hkmem : k ∈ arguments.map Prod.fst := mem_keys_of_getField _ _ _ hkv
    have hks : k ≠ "source" := hargnotsrc k hkmem
    unfold outboundPayload buildCommand
    rw [getField_updateFields_not_mem _ _ _ (by simp [hks]),
        getField_updateFields_mem _ _ _ hnd hkmem, hkv]
  · intro k hk
    unfold outboundPayload at hk
    rcases mem_keys_updateFields _ _ _ hk with h1 | h1
    · unfold buildCommand at h1
      rcases mem_keys_updateFields _ _ _ h1 with h2 | h2
      · simp at h2
        rcases h2 with h2 | h2 | h2 <;> simp [h2]
      · have := hkeys _ h2
        simp at this
        rcases this with h3 | h3 | h3 <;> simp [h3]
    · simp at h1
      simp [h1]

/-- Concrete instantiation of the C5 theorem: an `input_text` call with a
selector and a text argument broadcasts the full seven-field-shaped payload
with the minted id and the mcp source tag. -/
theorem outbound_command_shape_witness :
    (execute_tool_dispatch "input_text"
        [("selector", .vstr "#box"), ("text", .vstr "hello")] "u1" 0 .vnull
        true [{ cid := 1, sendOk := true }]
        { pending := [], queue := [] }).2.1 =
      some (broadcast_command [{ cid := 1, sendOk := true }]
        (.vdict (outboundPayload "input_text" "u1"
          [("selector", .vstr "#box"), ("text", .vstr "hello")])))
  ∧ getField (outboundPayload "input_text" "u1"
        [("selector", .vstr "#box"), ("text", .vstr "hello")]) "source" =
      some (.vstr "mcp")
  ∧ getField (outboundPayload "input_text" "u1"
        [("selector", .vstr "#box"), ("text", .vstr "hello")]) "request_id" =
      some (.vstr "u1") := by
  obtain ⟨h1, _, _, h4, h5, _, _⟩ :=
    outbound_command_shape "input_text"
      [("selector", .vstr "#box"), ("text", .vstr "hello")] "u1" 0 .vnull
      [{ cid := 1, sendOk := true }] { pending := [], queue := [] }
      (by decide)
      (by
        intro k hk
        simp only [List.map_cons, List.map_nil, List.mem_cons] at hk
        rcases hk with hk | hk
        · simp [hk]
        · rcases hk with hk | hk
          · simp [hk]
          · simp at hk)
      (by simp)
  exact ⟨h1, h5, h4⟩

/-- C6 counterexample: "bogus_tool" is not one of the 8 cataloged tools, yet
`execute_tool` validates nothing - it builds a `dom_operation` command whose
action is the unknown name itself and broadcasts it to the connected client,
ending up waiting for a response instead of failing without dispatch. -/
theorem unknown_tool_still_broadcast_counterexample :
    toolNames.contains "bogus_tool" = false
  ∧ execute_tool_dispatch "bogus_tool" [] "r7" 0 .vnull true
        [{ cid := 1, sendOk := true }] { pending := [], queue := [] } =
      (register_request { pending := [], queue := [] } "r7" "bogus_tool" 0,
       some (broadcast_command [{ cid := 1, sendOk := true }]
         (.vdict (outboundPayload "bogus_tool" "r7" []))),
       .awaitingResponse "r7")
  ∧ getField (outboundPayload "bogus_tool" "r7" []) "action" =
      some (.vstr "bogus_tool")
  ∧ (broadcast_command [{ cid := 1, sendOk := true }]
       (.vdict (outboundPayload "bogus_tool" "r7" []))).sends.length = 1 := by
  refine ⟨by decide, by rfl, by rfl, by rfl⟩

/-- C6 (amended): `execute_tool` performs no catalog validation: apart from
the `list_saved_selectors` special case it maps any tool name - cataloged or
not - through `action_mapping` (an unknown name defaults to itself), builds
the command and dispatches it toward the extension clients; the 8-entry
catalog is consulted by `tools/list`, not by the dispatcher. -/
theorem dispatcher_never_validates_catalog
    (tool_name : String) (arguments : Fields) (request_id : String) (now : Nat)
    (savedSelectors : Value) (clients : List WSClient) (st : CorrState)
    (hnotlocal : tool_name ≠ "list_saved_selectors")
    (hok : (broadcast_command clients
      (.vdict (outboundPayload tool_name request_id arguments))).ok = true) :
    execute_tool_dispatch tool_name arguments request_id now savedSelectors
        true clients st =
      (register_request st request_id tool_name now,
       some (broadcast_command clients
         (.vdict (outboundPayload tool_name request_id arguments))),
       .awaitingResponse request_id)
  ∧ toolNames.length = 8
  ∧ (∀ t, action_mapping.lookup t = none → actionFor t = t) := by
  have hsend : send_command_spec true clients
      (buildCommand tool_name request_id arguments) "mcp" =
      (some (broadcast_command clients
         (.vdict (outboundPayload tool_name request_id arguments))),
       .vdict [("status", .vstr "sent"),
               ("message", .vstr "Command sent to extension")]) := by
    unfold send_command_spec
    simp only [if_true]
    unfold outboundPayload at hok
    rw [if_pos hok]
    rfl
  refine ⟨?_, by decide, ?_⟩
  · simp only [execute_tool_dispatch]
    rw [if_neg hnotlocal, hsend]
    rfl
  · intro t h
    simp [actionFor, h]

/-- Concrete instantiation of the amended C6 theorem: another non-cataloged
name, "made_up_action", is dispatched and awaited like any other networked
tool. -/
theorem dispatcher_never_validates_catalog_witness :
    execute_tool_dispatch "made_up_action" [] "r8" 0 .vnull true
        [{ cid := 2, sendOk := true }] { pending := [], queue := [] } =
      (register_request { pending := [], queue := [] } "r8" "made_up_action" 0,
       some (broadcast_command [{ cid := 2, sendOk := true }]
         (.vdict (outboundPayload "made_up_action" "r8" []))),
       .awaitingResponse "r8")
  ∧ toolNames.length = 8 := by
  obtain ⟨h1, h2, _⟩ :=
    dispatcher_never_validates_catalog "made_up_action" [] "r8" 0 .vnull
      [{ cid := 2, sendOk := true }] { pending := [], queue := [] }
      (by decide) (by rfl)
  exact ⟨h1, h2⟩

/-- C10: a syntactically valid JSON-RPC body (a dict) whose "method" field is
absent or not a string is never answered with the -32601 method-not-found
error: `handle_jsonrpc_request` raises at `method.startswith`, and
`handle_message` converts the exception into a JSON-RPC error envelope with
code -32000 and HTTP status 500. -/
theorem missing_method_answered_with_minus32000
    (fs : Fields) (toolResult : Value)
    (hm : ((getField fs "method").getD .vnull).isStr = false) :
    handle_message (.vdict fs) toolResult =
      { status := 500,
        body := rpcError .vnull (-32000)
          "AttributeError: object has no attribute startswith" } := by
  have hreq : handle_jsonrpc_request (.vdict fs) toolResult =
      .error "AttributeError: object has no attribute startswith" := by
    unfold handle_jsonrpc_request
    simp only [pyGet]
    cases hmv : (getField fs "method").getD .vnull with
    | vstr s =>
        rw [hmv] at hm
        simp [Value.isStr] at hm
    | vnull => simp [pyEqStr, pyStartswith]
    | vbool b => simp [pyEqStr, pyStartswith]
    | vnum n => simp [pyEqStr, pyStartswith]
    | vlist xs => simp [pyEqStr, pyStartswith]
    | vdict dfs => simp [pyEqStr, pyStartswith]
  unfold handle_message
  rw [hreq]

/-- Concrete instantiation of the C10 theorem: the body
`{"jsonrpc": "2.0", "id": 1}` with no method field is answered with the
-32000 envelope and HTTP 500 (not -32601). -/
theorem missing_method_answered_with_minus32000_witness :
    handle_message (.vdict [("jsonrpc", .vstr "2.0"), ("id", .vnum 1)]) .vnull =
      { status := 500,
        body := rpcError .vnull (-32000)
          "AttributeError: object has no attribute startswith" } :=
  missing_method_answered_with_minus32000
    [("jsonrpc", .vstr "2.0"), ("id", .vnum 1)] .vnull (by rfl)
